import Mathlib

/-
Verification of the wmt dependency-health checker (wmtlib) against its
natural-language specification.  The Rust sources are shallowly embedded:
pure functions become Lean functions, network fetches become explicit
oracle parameters, and a Rust panic (an `unwrap` on a missing value) is
modelled by an `Option`-returning function yielding `none`.
-/

/-- Embeds `Status` from check.rs: Green / Yellow / Red / Grey. -/
inductive Status where
  | green
  | yellow
  | red
  | grey
deriving DecidableEq, Repr

/-- Embeds `CheckResult` from check.rs: a question number (attached by the
caller), a status, and an explanation string. -/
structure CheckResult where
  question : Option String
  status : Status
  explanation : String
deriving DecidableEq, Repr

/-- Embeds `CheckResult::from_error_message` (check.rs lines 70-77).  Note:
this constructor is defined in the source but never called anywhere. -/
def CheckResult.from_error_message (message : String) : CheckResult :=
  { question := none, status := Status.red, explanation := message }

/-- Embeds `CrateVersion` from cargo_crate/mod.rs.  The source field named
`local` is rendered `local_version` because `local` is a Lean keyword. -/
structure CrateVersion where
  local_version : Option String
  remote : Option String
deriving DecidableEq, Repr

/-- Embeds `Crate` from cargo_crate/mod.rs (the chrono timestamp fields
`created_at` and `updated_at` are omitted: no embedded check reads them). -/
structure Crate where
  name : String
  source_url : Option String
  description : Option String
  documentation : Option String
  homepage : Option String
  version : Option CrateVersion
  downloads : Nat
deriving DecidableEq, Repr

/-- constants.rs: `MAX_DOWNLOAD_FOR_MINOR_VERSION`. -/
def MAX_DOWNLOAD_FOR_MINOR_VERSION : Nat := 500

/-- constants.rs: `QUESTION_EXPLANATION_SUFFIX`. -/
def QUESTION_EXPLANATION_SUFFIX : String := "The project has"

/-- constants.rs: `RUST_DOC_URL`. -/
def RUST_DOC_URL : String := "https://docs.rs"

/-- Helper for embedding Rust `str::split(sep)` over a character list:
splitting on a separator character, keeping empty segments (so the empty
input yields one empty segment, exactly as in Rust). -/
def split_on_char (sep : Char) : List Char → List (List Char)
  | [] => [[]]
  | c :: rest =>
    match split_on_char sep rest with
    | [] => if c = sep then [[], [c]] else [[c]]
    | h :: t => if c = sep then [] :: h :: t else (c :: h) :: t

/-- Embeds Rust `text.split('.')` collected to a vector of strings. -/
def split_on_dot (text : String) : List String :=
  (split_on_char '.' text.data).map (fun l => String.mk l)

/-- Embeds Rust `str::parse::<u64>`: an optional leading plus sign followed
by one or more ASCII digits, rejecting the empty digit string and values
that overflow 64 bits.  `none` models `Err(ParseIntError)`. -/
def parse_u64 (s : String) : Option Nat :=
  let digits :=
    match s.data with
    | '+' :: rest => rest
    | l => l
  if digits.isEmpty then none
  else if digits.all Char.isDigit then
    let n := digits.foldl (fun acc c => acc * 10 + (c.toNat - 48)) 0
    if n < 2 ^ 64 then some n else none
  else none

/-- Embeds `Version` from version.rs. -/
structure Version where
  id : String
  minor : Nat
  major : Nat
  patch : Nat
deriving DecidableEq, Repr

/-- Embeds `Version::from_version_text` (version.rs lines 10-18): split the
text on dots and `unwrap` the `u64` parse of the first three segments.  The
source panics when a segment is missing or fails to parse; the panic is
modelled by `none`. -/
def from_version_text (text : String) : Option Version :=
  let semver := split_on_dot text
  match ((semver.get? 0).bind parse_u64, (semver.get? 1).bind parse_u64,
         (semver.get? 2).bind parse_u64) with
  | (some a, some b, some c) =>
      some { id := text, major := a, minor := b, patch := c }
  | _ => none

/-- Embeds `Version::at_least_one_major_release`: `major > 0`. -/
def Version.at_least_one_major_release (v : Version) : Bool :=
  decide (0 < v.major)

/-- Embeds `Version::at_least_one_minor_release`: `minor >= 1`. -/
def Version.at_least_one_minor_release (v : Version) : Bool :=
  decide (1 ≤ v.minor)

/-- Embeds `CrateCheck::check_production_readiness` (check.rs lines
242-302).  The source `unwrap`s the crate version, its remote field and the
parsed version; each potential panic is modelled by `none`. -/
def check_production_readiness (cargo_crate : Crate) : Option CheckResult :=
  match cargo_crate.version with
  | none => none
  | some dependency_version =>
    match dependency_version.remote with
    | none => none
    | some remote_dependency_version =>
      match from_version_text remote_dependency_version with
      | none => none
      | some version =>
        if version.at_least_one_major_release then
          some { question := none, status := Status.green,
                 explanation := QUESTION_EXPLANATION_SUFFIX ++ " at least one major release" }
        else if version.at_least_one_minor_release then
          if decide (MAX_DOWNLOAD_FOR_MINOR_VERSION ≤ cargo_crate.downloads) then
            some { question := none, status := Status.yellow,
                   explanation := QUESTION_EXPLANATION_SUFFIX ++ " at least two minor releases and at least 500 downloads" }
          else
            some { question := none, status := Status.red,
                   explanation := QUESTION_EXPLANATION_SUFFIX ++ " no major or minor release" }
        else
          some { question := none, status := Status.red,
                 explanation := QUESTION_EXPLANATION_SUFFIX ++ " no major or minor release" }

/-- Claim C1: for a dependency whose remote version parses to (major,
minor, patch) and whose downloads count is d, the production-readiness
evaluator returns Pass (Green) when major > 0, else Partial (Yellow) when
minor >= 1 and d >= 500, else Fail (Red). -/
theorem production_readiness_verdict (c : Crate) (cv : CrateVersion)
    (remote : String) (v : Version)
    (hv : c.version = some cv) (hr : cv.remote = some remote)
    (hp : from_version_text remote = some v) :
    (check_production_readiness c).map CheckResult.status =
      some (if 0 < v.major then Status.green
            else if 1 ≤ v.minor ∧ 500 ≤ c.downloads then Status.yellow
            else Status.red) := by
  simp only [check_production_readiness, hv, hr, hp,
    Version.at_least_one_major_release, Version.at_least_one_minor_release,
    MAX_DOWNLOAD_FOR_MINOR_VERSION, decide_eq_true_eq]
  by_cases h1 : 0 < v.major
  · simp [h1]
  · by_cases h2 : 1 ≤ v.minor
    · by_cases h3 : 500 ≤ c.downloads
      · simp [h1, h2, h3]
      · simp [h1, h2, h3]
    · simp [h1, h2]

/-- A crate whose registry version is "2.0.0", for concrete instantiation. -/
def demo_crate_major : Crate :=
  { name := "a", source_url := none, description := none,
    documentation := none, homepage := none,
    version := some { local_version := none, remote := some "2.0.0" },
    downloads := 0 }

/-- A crate at version "0.3.0" with 500 downloads. -/
def demo_crate_minor_hi : Crate :=
  { name := "b", source_url := none, description := none,
    documentation := none, homepage := none,
    version := some { local_version := none, remote := some "0.3.0" },
    downloads := 500 }

/-- A crate at version "0.3.0" with 499 downloads. -/
def demo_crate_minor_lo : Crate :=
  { name := "c", source_url := none, description := none,
    documentation := none, homepage := none,
    version := some { local_version := none, remote := some "0.3.0" },
    downloads := 499 }

/-- A crate at version "0.0.5" with a million downloads. -/
def demo_crate_patch : Crate :=
  { name := "d", source_url := none, description := none,
    documentation := none, homepage := none,
    version := some { local_version := none, remote := some "0.0.5" },
    downloads := 1000000 }

/-- Claim C1 witness: the claim instantiated on the examples from the spec:
version "2.0.0" gives Pass, "0.3.0" gives Partial at 500 downloads and Fail
at 499, and "0.0.5" gives Fail even with a million downloads. -/
theorem production_readiness_verdict_witness :
    ((check_production_readiness demo_crate_major).map CheckResult.status
        = some Status.green) ∧
    ((check_production_readiness demo_crate_minor_hi).map CheckResult.status
        = some Status.yellow) ∧
    ((check_production_readiness demo_crate_minor_lo).map CheckResult.status
        = some Status.red) ∧
    ((check_production_readiness demo_crate_patch).map CheckResult.status
        = some Status.red) := by
  refine ⟨?_, ?_, ?_, ?_⟩
  · have h := production_readiness_verdict demo_crate_major
      { local_version := none, remote := some "2.0.0" } "2.0.0"
      { id := "2.0.0", major := 2, minor := 0, patch := 0 } rfl rfl (by decide)
    rw [h]; decide
  · have h := production_readiness_verdict demo_crate_minor_hi
      { local_version := none, remote := some "0.3.0" } "0.3.0"
      { id := "0.3.0", major := 0, minor := 3, patch := 0 } rfl rfl (by decide)
    rw [h]; decide
  · have h := production_readiness_verdict demo_crate_minor_lo
      { local_version := none, remote := some "0.3.0" } "0.3.0"
      { id := "0.3.0", major := 0, minor := 3, patch := 0 } rfl rfl (by decide)
    rw [h]; decide
  · have h := production_readiness_verdict demo_crate_patch
      { local_version := none, remote := some "0.0.5" } "0.0.5"
      { id := "0.0.5", major := 0, minor := 0, patch := 5 } rfl rfl (by decide)
    rw [h]; decide

/-- Embeds octocrab `Issue` restricted to the one field the checker reads:
the comment count. -/
structure Issue where
  comments : Nat
deriving DecidableEq, Repr

/-- Embeds `CrateCheck::check_bug_response` (check.rs lines 443-486), with
the list of open issues labeled "bug" (the result of
`GithubService::get_bugs(State::Open)`) passed as an oracle parameter. -/
def check_bug_response (open_bugs : List Issue) : CheckResult :=
  if open_bugs.length == 0 then
    { question := none, status := Status.green,
      explanation := "There are no open bugs" }
  else
    let open_bugs_with_comments := open_bugs.filter (fun bug => decide (1 < bug.comments))
    if open_bugs_with_comments.isEmpty then
      { question := none, status := Status.red,
        explanation := "There are " ++ toString open_bugs_with_comments.length
          ++ " open bugs with no response from the maintainer(s)" }
    else
      { question := none, status := Status.green,
        explanation := "The maintainer(s) have responded to all open bugs" }

/-- Claim C2 counterexample: with two open bugs, one with 0 comments
(unanswered) and one with 3 comments, the claim demands Fail (at least one
open bug has zero maintainer responses), but the evaluator returns Pass;
moreover in a genuine Fail case (a single open bug with 0 comments) the
explanation reports the count 0 (the number of bugs that DO have
responses), not the number of unanswered bugs (1). -/
theorem bug_response_counterexample :
    (∃ b ∈ [Issue.mk 0, Issue.mk 3], b.comments ≤ 1) ∧
    (check_bug_response [Issue.mk 0, Issue.mk 3]).status = Status.green ∧
    (check_bug_response [Issue.mk 0]).status = Status.red ∧
    (check_bug_response [Issue.mk 0]).explanation =
      "There are 0 open bugs with no response from the maintainer(s)" := by
  refine ⟨⟨Issue.mk 0, by simp, by decide⟩, by decide, by decide, rfl⟩

/-- Claim C2 (amended): the bug-response evaluator returns Pass on an empty
open-bug list; on a non-empty list it returns Fail if and only if EVERY
open bug has comment count at most 1 (i.e. no open bug has a maintainer
response), and in the Fail case the explanation embeds the count of bugs
with responses, which is always 0.  One open bug with 0 comments gives
Fail; one open bug with 3 comments gives Pass. -/
theorem bug_response_verdict (open_bugs : List Issue) :
    (open_bugs = [] → check_bug_response open_bugs =
      { question := none, status := Status.green,
        explanation := "There are no open bugs" }) ∧
    ((check_bug_response open_bugs).status = Status.red ↔
      open_bugs ≠ [] ∧ ∀ b ∈ open_bugs, b.comments ≤ 1) ∧
    ((check_bug_response open_bugs).status = Status.red →
      (check_bug_response open_bugs).explanation =
        "There are 0 open bugs with no response from the maintainer(s)") := by
  by_cases hnil : open_bugs = []
  · subst hnil
    refine ⟨fun _ => rfl, ?_, ?_⟩ <;> simp [check_bug_response]
  · have hlen : (open_bugs.length == 0) = false := by
      simp [List.length_eq_zero, hnil]
    by_cases hall : ∀ b ∈ open_bugs, b.comments ≤ 1
    · have hfilter : open_bugs.filter (fun bug => decide (1 < bug.comments)) = [] := by
        rw [List.filter_eq_nil_iff]
        intro b hb
        simpa using hall b hb
      refine ⟨fun h => absurd h hnil, ?_, ?_⟩
      · constructor
        · intro _; exact ⟨hnil, hall⟩
        · intro _
          simp [check_bug_response, hlen, hfilter]
      · intro _
        simp only [check_bug_response, hlen, hfilter]
        rfl
    · obtain ⟨b, hb, hbc⟩ := by
        push_neg at hall
        exact hall
      have hmem : b ∈ open_bugs.filter (fun bug => decide (1 < bug.comments)) := by
        rw [List.mem_filter]
        exact ⟨hb, by simpa using hbc⟩
      have hfilter : (open_bugs.filter (fun bug => decide (1 < bug.comments))).isEmpty = false := by
        cases hf : open_bugs.filter (fun bug => decide (1 < bug.comments)) with
        | nil => rw [hf] at hmem; simp at hmem
        | cons x xs => rfl
      refine ⟨fun h => absurd h hnil, ?_, ?_⟩
      · constructor
        · intro hred
          exfalso
          simp [check_bug_response, hlen, hfilter] at hred
        · intro ⟨_, hall2⟩
          exact absurd hall2 hall
      · intro hred
        exfalso
        simp [check_bug_response, hlen, hfilter] at hred

/-- Claim C2 witness: the amended claim applied to a single open bug with 0
comments (Fail) and a single open bug with 3 comments (Pass). -/
theorem bug_response_verdict_witness :
    (check_bug_response [Issue.mk 0]).status = Status.red ∧
    (check_bug_response [Issue.mk 3]).status ≠ Status.red := by
  constructor
  · exact (bug_response_verdict [Issue.mk 0]).2.1.mpr (by simp)
  · intro h
    have := (bug_response_verdict [Issue.mk 3]).2.1.mp h
    simp at this

/-- Embeds the bug-response criterion as actually executed, including the
`GithubService::get_bugs` fetch: the source calls `.send().await.unwrap()`
(github/mod.rs lines 144-155), so a failed fetch panics and aborts the
whole process; the panic is modelled by `none`.  A caught error would
instead have produced `some (CheckResult.from_error_message msg)`. -/
def check_bug_response_with_fetch (fetched_bugs : Except String (List Issue)) :
    Option CheckResult :=
  match fetched_bugs with
  | Except.ok bugs => some (check_bug_response bugs)
  | Except.error _ => none

/-- Claim C3: a fetch error during one criterion is NOT converted into a
Fail-status CheckResult: the evaluation panics (modelled by `none`),
aborting the entire run, even though `CheckResult::from_error_message`
exists in the source precisely to build such a Fail row (it is never
called).  The second conjunct shows the Fail row the claim expects the
code to produce for the failing cell. -/
theorem fetch_error_aborts_run :
    check_bug_response_with_fetch (Except.error "the network call failed") = none ∧
    check_bug_response_with_fetch (Except.error "the network call failed") ≠
      some (CheckResult.from_error_message "the network call failed") ∧
    CheckResult.from_error_message "the network call failed" =
      { question := none, status := Status.red,
        explanation := "the network call failed" } := by
  refine ⟨rfl, by decide, rfl⟩

/-- Claim C4 counterexample: on the two-segment string "1.2" the claim
demands a reported MalformedVersion failure ("a reported failure, not a
crash"), but `Version::from_version_text` has no error value at all: it
`unwrap`s and panics, modelled here by `none`.  No MalformedVersion (or
any other) error type exists in the source. -/
theorem version_parse_counterexample :
    from_version_text "1.2" = none ∧ (split_on_dot "1.2").length = 2 := by
  decide

/-- Claim C4 (amended): when the version text has at least three
dot-separated segments whose first three all parse as u64 integers, parsing
returns exactly those three numbers (regardless of any trailing
pre-release segments); when a segment is missing (fewer than three
segments) or one of the first three fails integer parsing, the function
panics (modelled by `none`) instead of reporting a MalformedVersion
error. -/
theorem version_parse_characterization (text : String) :
    (∀ a b c : Nat,
      (split_on_dot text)[0]?.bind parse_u64 = some a →
      (split_on_dot text)[1]?.bind parse_u64 = some b →
      (split_on_dot text)[2]?.bind parse_u64 = some c →
      from_version_text text =
        some { id := text, major := a, minor := b, patch := c }) ∧
    ((split_on_dot text).length < 3 → from_version_text text = none) ∧
    (((split_on_dot text)[0]?.bind parse_u64 = none ∨
      (split_on_dot text)[1]?.bind parse_u64 = none ∨
      (split_on_dot text)[2]?.bind parse_u64 = none) →
      from_version_text text = none) := by
  refine ⟨?_, ?_, ?_⟩
  · intro a b c h0 h1 h2
    simp [from_version_text, h0, h1, h2]
  · intro hlt
    have h2 : (split_on_dot text)[2]? = none := by
      rw [List.getElem?_eq_none_iff]
      omega
    rcases e0 : (split_on_dot text)[0]?.bind parse_u64 with _ | a <;>
      rcases e1 : (split_on_dot text)[1]?.bind parse_u64 with _ | b <;>
        simp [from_version_text, e0, e1, h2]
  · intro h
    rcases e0 : (split_on_dot text)[0]?.bind parse_u64 with _ | a <;>
      rcases e1 : (split_on_dot text)[1]?.bind parse_u64 with _ | b <;>
        rcases e2 : (split_on_dot text)[2]?.bind parse_u64 with _ | c <;>
          simp [from_version_text, e0, e1, e2]
    rcases h with h | h | h
    · rw [h] at e0; exact Option.noConfusion e0
    · rw [h] at e1; exact Option.noConfusion e1
    · rw [h] at e2; exact Option.noConfusion e2

/-- Claim C4 witness: the success half of the amended claim applied to
"1.2.3.alpha1", whose trailing pre-release segment is ignored. -/
theorem version_parse_characterization_witness :
    from_version_text "1.2.3.alpha1" =
      some { id := "1.2.3.alpha1", major := 1, minor := 2, patch := 3 } :=
  (version_parse_characterization "1.2.3.alpha1").1 1 2 3
    (by decide) (by decide) (by decide)

/-- Helper for embedding Rust `str::contains`: does the haystack start
with the needle? -/
def starts_with_list : List Char → List Char → Bool
  | [], _ => true
  | _ :: _, [] => false
  | a :: as, b :: bs => a == b && starts_with_list as bs

/-- Helper for embedding Rust `str::contains`: does the needle occur as a
contiguous sublist of the haystack? -/
def contains_list (needle : List Char) : List Char → Bool
  | [] => starts_with_list needle []
  | b :: bs => starts_with_list needle (b :: bs) || contains_list needle bs

/-- Embeds Rust `str::contains(pattern)` for string patterns: substring
containment. -/
def contains_substring (haystack needle : String) : Bool :=
  contains_list needle.data haystack.data

/-- Embeds `DocSource` from doc/mod.rs. -/
inductive DocSource where
  | GithubReadMe
  | RustDoc
deriving DecidableEq, Repr

/-- Embeds `DocService` from doc/mod.rs (the HTTP client field is
omitted: fetch results are supplied by a `DocEnv` oracle). -/
structure DocService where
  crate_name : String
  doc_source : DocSource
  doc_url : String
deriving DecidableEq, Repr

/-- Embeds `DocService::new` (doc/mod.rs lines 38-56): a documentation
link containing "github.com" is classified GithubReadMe with that link as
the doc URL; any other link is classified RustDoc with the canonical
docs.rs URL built from the crate name. -/
def DocService.new (crate_name crate_documentation : String) : DocService :=
  if contains_substring crate_documentation "github.com" then
    { crate_name := crate_name, doc_source := DocSource.GithubReadMe,
      doc_url := crate_documentation }
  else
    { crate_name := crate_name, doc_source := DocSource.RustDoc,
      doc_url := RUST_DOC_URL ++ "/" ++ crate_name }

/-- Oracle for the documentation fetches: README presence in the GitHub
community profile, HTTP success of the docs.rs page, absence of a
build-warning marker on that page, and the parsed coverage score (`none`
models the `ParseIntError` of `get_rust_doc_coverage_score`). -/
structure DocEnv where
  readme_present : Bool
  rustdoc_page_ok : Bool
  build_ok : Bool
  coverage : Option Nat
deriving DecidableEq, Repr

/-- Embeds `DocService::check_doc_page_exists` (doc/mod.rs lines 88-102). -/
def DocService.check_doc_page_exists (doc : DocService) (env : DocEnv) : Bool :=
  match doc.doc_source with
  | DocSource.GithubReadMe => env.readme_present
  | DocSource.RustDoc => env.rustdoc_page_ok

/-- Embeds `DocService::has_successful_build` (doc/mod.rs lines 58-61). -/
def DocService.has_successful_build (_doc : DocService) (env : DocEnv) : Bool :=
  env.build_ok

/-- Embeds `DocService::get_rust_doc_coverage_score` (doc/mod.rs lines
68-77). -/
def DocService.get_rust_doc_coverage_score (_doc : DocService) (env : DocEnv) :
    Option Nat :=
  env.coverage

/-- Embeds the doc-link selection at the top of
`CrateCheck::check_documentation` (check.rs lines 309-312):
`documentation.unwrap_or_else(|| source_url.unwrap())`; `none` models the
panic when both are absent. -/
def maybe_doc_link (cargo_crate : Crate) : Option String :=
  match cargo_crate.documentation with
  | some d => some d
  | none => cargo_crate.source_url

/-- Embeds `CrateCheck::check_documentation` (check.rs lines 308-389). -/
def check_documentation (cargo_crate : Crate) (env : DocEnv) : Option CheckResult :=
  match maybe_doc_link cargo_crate with
  | none => none
  | some link =>
    let doc := DocService.new cargo_crate.name link
    if doc.check_doc_page_exists env then
      match doc.doc_source with
      | DocSource.GithubReadMe =>
        some { question := none, status := Status.green,
               explanation := "README exists. Can\x27t guarantee the coverage." }
      | DocSource.RustDoc =>
        if doc.has_successful_build env then
          match doc.get_rust_doc_coverage_score env with
          | some value =>
            some { question := none,
                   status := if value < 50 then
                               (if value < 10 then Status.red else Status.yellow)
                             else Status.green,
                   explanation := toString value ++ "% of the crate is documented" }
          | none =>
            some { question := none, status := Status.yellow,
                   explanation := "The crate is documented on doc.rs but there\x27s no doc coverage information" }
        else
          some { question := none, status := Status.red,
                 explanation := "The crate has a failing documentation build" }
    else
      some { question := none, status := Status.red,
             explanation := "The crate has no README or doc.rs page" }

/-- Claim C5: for a hosted (docs.rs) doc page that exists and whose build
succeeded, a parsed coverage score v gives Pass when v >= 50, Partial when
10 <= v < 50, Fail when v < 10, with the percentage in the explanation;
an unparseable score gives Partial; a present GitHub README gives Pass; a
failed hosted build gives Fail; an absent page gives Fail. -/
theorem documentation_verdict :
    (∀ (c : Crate) (env : DocEnv) (link : String) (v : Nat),
      maybe_doc_link c = some link →
      (DocService.new c.name link).doc_source = DocSource.RustDoc →
      env.rustdoc_page_ok = true → env.build_ok = true → env.coverage = some v →
      check_documentation c env =
        some { question := none,
               status := if 50 ≤ v then Status.green
                         else if 10 ≤ v then Status.yellow else Status.red,
               explanation := toString v ++ "% of the crate is documented" }) ∧
    (∀ (c : Crate) (env : DocEnv) (link : String),
      maybe_doc_link c = some link →
      (DocService.new c.name link).doc_source = DocSource.RustDoc →
      env.rustdoc_page_ok = true → env.build_ok = true → env.coverage = none →
      check_documentation c env =
        some { question := none, status := Status.yellow,
               explanation := "The crate is documented on doc.rs but there\x27s no doc coverage information" }) ∧
    (∀ (c : Crate) (env : DocEnv) (link : String),
      maybe_doc_link c = some link →
      (DocService.new c.name link).doc_source = DocSource.GithubReadMe →
      env.readme_present = true →
      check_documentation c env =
        some { question := none, status := Status.green,
               explanation := "README exists. Can\x27t guarantee the coverage." }) ∧
    (∀ (c : Crate) (env : DocEnv) (link : String),
      maybe_doc_link c = some link →
      (DocService.new c.name link).doc_source = DocSource.RustDoc →
      env.rustdoc_page_ok = true → env.build_ok = false →
      check_documentation c env =
        some { question := none, status := Status.red,
               explanation := "The crate has a failing documentation build" }) ∧
    (∀ (c : Crate) (env : DocEnv) (link : String),
      maybe_doc_link c = some link →
      (DocService.new c.name link).check_doc_page_exists env = false →
      check_documentation c env =
        some { question := none, status := Status.red,
               explanation := "The crate has no README or doc.rs page" }) := by
  refine ⟨?_, ?_, ?_, ?_, ?_⟩
  · intro c env link v hlink hds hpage hbuild hcov
    simp only [check_documentation, hlink, DocService.check_doc_page_exists,
      DocService.has_successful_build, DocService.get_rust_doc_coverage_score,
      hds, hpage, hbuild, hcov, if_true]
    have hstat : (if v < 50 then (if v < 10 then Status.red else Status.yellow)
                  else Status.green) =
        (if 50 ≤ v then Status.green
         else if 10 ≤ v then Status.yellow else Status.red) := by
      split_ifs <;> first | rfl | omega
    rw [hstat]
  · intro c env link hlink hds hpage hbuild hcov
    simp only [check_documentation, hlink, DocService.check_doc_page_exists,
      DocService.has_successful_build, DocService.get_rust_doc_coverage_score,
      hds, hpage, hbuild, hcov, if_true]
  · intro c env link hlink hds hreadme
    simp only [check_documentation, hlink, DocService.check_doc_page_exists,
      hds, hreadme, if_true]
  · intro c env link hlink hds hpage hbuild
    simp only [check_documentation, hlink, DocService.check_doc_page_exists,
      DocService.has_successful_build, hds, hpage, hbuild, if_true,
      Bool.false_eq_true, if_false]
  · intro c env link hlink hpage
    simp only [check_documentation, hlink, hpage, Bool.false_eq_true, if_false]

/-- A crate documented on docs.rs, for concrete instantiation. -/
def docs_crate : Crate :=
  { name := "serde", source_url := some "https://github.com/serde-rs/serde",
    description := none, documentation := some "https://docs.rs/serde",
    homepage := none, version := none, downloads := 0 }

/-- Doc oracle: page up, build ok, coverage 75. -/
def doc_env_75 : DocEnv :=
  { readme_present := false, rustdoc_page_ok := true, build_ok := true,
    coverage := some 75 }

/-- Doc oracle: page up, build ok, coverage 30. -/
def doc_env_30 : DocEnv :=
  { readme_present := false, rustdoc_page_ok := true, build_ok := true,
    coverage := some 30 }

/-- Doc oracle: page up, build ok, coverage 5. -/
def doc_env_5 : DocEnv :=
  { readme_present := false, rustdoc_page_ok := true, build_ok := true,
    coverage := some 5 }

/-- Doc oracle: page up, build ok, unparseable coverage. -/
def doc_env_unknown : DocEnv :=
  { readme_present := false, rustdoc_page_ok := true, build_ok := true,
    coverage := none }

/-- Claim C5 witness: the claim applied to a docs.rs-documented crate with
coverage 75 (Pass, "75" in the explanation), 30 (Partial), 5 (Fail) and an
unparseable coverage (Partial). -/
theorem documentation_verdict_witness :
    check_documentation docs_crate doc_env_75 =
      some { question := none, status := Status.green,
             explanation := "75% of the crate is documented" } ∧
    check_documentation docs_crate doc_env_30 =
      some { question := none, status := Status.yellow,
             explanation := "30% of the crate is documented" } ∧
    check_documentation docs_crate doc_env_5 =
      some { question := none, status := Status.red,
             explanation := "5% of the crate is documented" } ∧
    check_documentation docs_crate doc_env_unknown =
      some { question := none, status := Status.yellow,
             explanation := "The crate is documented on doc.rs but there\x27s no doc coverage information" } := by
  refine ⟨?_, ?_, ?_, ?_⟩
  · rw [documentation_verdict.1 docs_crate doc_env_75 "https://docs.rs/serde" 75
      rfl (by decide) rfl rfl rfl]
    decide
  · rw [documentation_verdict.1 docs_crate doc_env_30 "https://docs.rs/serde" 30
      rfl (by decide) rfl rfl rfl]
    decide
  · rw [documentation_verdict.1 docs_crate doc_env_5 "https://docs.rs/serde" 5
      rfl (by decide) rfl rfl rfl]
    decide
  · exact documentation_verdict.2.1 docs_crate doc_env_unknown "https://docs.rs/serde"
      rfl (by decide) rfl rfl rfl

/-- A crate with no documentation field and a GitHub source URL. -/
def readme_crate : Crate :=
  { name := "serde", source_url := some "https://github.com/serde-rs/serde",
    description := none, documentation := none, homepage := none,
    version := none, downloads := 0 }

/-- A crate with no documentation field and a non-GitHub source URL. -/
def plain_src_crate : Crate :=
  { name := "left-pad", source_url := some "https://example.com/left-pad",
    description := none, documentation := none, homepage := none,
    version := none, downloads := 0 }

/-- Claim C10: when the documentation field is absent and a source URL is
present, the documentation evaluator uses the source URL as the doc link;
a link containing "github.com" is classified GithubReadMe with that link
as the doc URL, any other link is classified RustDoc (hosted doc page)
with the canonical docs.rs URL built from the crate name. -/
theorem documentation_source_fallback (c : Crate) (s : String)
    (hdoc : c.documentation = none) (hsrc : c.source_url = some s) :
    maybe_doc_link c = some s ∧
    (contains_substring s "github.com" = true →
      DocService.new c.name s =
        { crate_name := c.name, doc_source := DocSource.GithubReadMe,
          doc_url := s }) ∧
    (contains_substring s "github.com" = false →
      DocService.new c.name s =
        { crate_name := c.name, doc_source := DocSource.RustDoc,
          doc_url := RUST_DOC_URL ++ "/" ++ c.name }) := by
  refine ⟨?_, ?_, ?_⟩
  · simp [maybe_doc_link, hdoc, hsrc]
  · intro h
    simp [DocService.new, h]
  · intro h
    simp [DocService.new, h]

/-- Claim C10 witness: the claim applied to a GitHub source URL (README
classification, URL kept) and to a non-GitHub source URL (docs.rs
classification with the canonical URL). -/
theorem documentation_source_fallback_witness :
    maybe_doc_link readme_crate = some "https://github.com/serde-rs/serde" ∧
    DocService.new readme_crate.name "https://github.com/serde-rs/serde" =
      { crate_name := "serde", doc_source := DocSource.GithubReadMe,
        doc_url := "https://github.com/serde-rs/serde" } ∧
    DocService.new plain_src_crate.name "https://example.com/left-pad" =
      { crate_name := "left-pad", doc_source := DocSource.RustDoc,
        doc_url := "https://docs.rs/left-pad" } := by
  obtain ⟨h1, h2, -⟩ := documentation_source_fallback readme_crate
    "https://github.com/serde-rs/serde" rfl rfl
  obtain ⟨-, -, h3⟩ := documentation_source_fallback plain_src_crate
    "https://example.com/left-pad" rfl rfl
  refine ⟨h1, ?_, ?_⟩
  · rw [h2 (by decide)]
    decide
  · rw [h3 (by decide)]
    decide

/-- Embeds octocrab `Release` restricted to the field the changelog check
reads: the optional body (release notes) text. -/
structure Release where
  body : Option String
deriving DecidableEq, Repr

/-- Embeds `GithubService::release_changelog_exists` (github/mod.rs lines
113-119): `Ok(release.body)` whenever the latest-release fetch succeeds --
even when the body is `None` -- and an error otherwise. -/
def release_changelog_exists (latest_release : Option Release) :
    Except String (Option String) :=
  match latest_release with
  | some release => Except.ok release.body
  | none => Except.error "Could not get changelog"

/-- Embeds `CrateCheck::check_changelog` (check.rs lines 393-417).
`changelog_note` is the oracle outcome of
`GithubService::changelog_note_exists` (HTTP success probing CHANGELOG.md
at the default branch); `latest_release` is the oracle outcome of
`get_latest_release` (`none` models a failed fetch or absent release). -/
def check_changelog (changelog_note : Bool) (latest_release : Option Release) :
    CheckResult :=
  if changelog_note then
    { question := none, status := Status.green,
      explanation := "The crate release has a CHANGELOG.md note" }
  else
    match release_changelog_exists latest_release with
    | Except.ok _ =>
      { question := none, status := Status.green,
        explanation := "The crate has a release changelog" }
    | Except.error _ =>
      { question := none, status := Status.red,
        explanation := "The crate has no release changelog or CHANGELOG.md" }

/-- Claim C7 counterexample: with no CHANGELOG file and a latest release
whose notes are absent (body = None), the claim demands Fail (neither a
CHANGELOG file nor non-empty release notes exist), but the evaluator
returns Pass, because `release_changelog_exists` answers `Ok` for any
fetched release without inspecting the notes. -/
theorem changelog_counterexample :
    (check_changelog false (some { body := none })).status = Status.green ∧
    (Release.mk none).body = none := by
  exact ⟨rfl, rfl⟩

/-- Claim C7 (amended): the changelog evaluator returns Pass if and only
if the CHANGELOG.md probe succeeds or the latest-release fetch succeeds
(regardless of whether that release has any notes); when the CHANGELOG
probe succeeds its explanation takes precedence; Fail exactly when the
probe fails and no release can be fetched. -/
theorem changelog_verdict (changelog_note : Bool)
    (latest_release : Option Release) :
    ((check_changelog changelog_note latest_release).status = Status.green ↔
      changelog_note = true ∨ latest_release.isSome = true) ∧
    (changelog_note = true →
      (check_changelog changelog_note latest_release).explanation =
        "The crate release has a CHANGELOG.md note") ∧
    (changelog_note = false → latest_release.isSome = true →
      (check_changelog changelog_note latest_release).explanation =
        "The crate has a release changelog") ∧
    (changelog_note = false → latest_release = none →
      check_changelog changelog_note latest_release =
        { question := none, status := Status.red,
          explanation := "The crate has no release changelog or CHANGELOG.md" }) := by
  cases changelog_note <;> cases latest_release <;>
    simp [check_changelog, release_changelog_exists]

/-- Claim C7 witness: the amended claim applied to a crate with a
CHANGELOG file and no fetchable release (Pass, CHANGELOG explanation), a
crate with only a fetchable release (Pass), and a crate with neither
(Fail). -/
theorem changelog_verdict_witness :
    (check_changelog true none).status = Status.green ∧
    (check_changelog false (some { body := some "notes" })).status = Status.green ∧
    (check_changelog true none).explanation =
      "The crate release has a CHANGELOG.md note" ∧
    (check_changelog false none).status = Status.red := by
  refine ⟨(changelog_verdict true none).1.mpr (Or.inl rfl),
    (changelog_verdict false (some { body := some "notes" })).1.mpr (Or.inr rfl),
    (changelog_verdict true none).2.1 rfl, ?_⟩
  rw [(changelog_verdict false none).2.2.2 rfl rfl]

/-- Embeds octocrab `Content` restricted to the fields
`GithubService::get_test_files` reads: the entry type and path. -/
structure Content where
  type : String
  path : String
deriving DecidableEq, Repr

/-- Embeds `GithubService::get_test_files` (github/mod.rs lines 132-142):
keep the root-listing entries that are directories whose path contains
"test". -/
def get_test_files (repo_content : List Content) : List Content :=
  repo_content.filter
    (fun item => item.type == "dir" && contains_substring item.path "test")

/-- Embeds `CrateCheck::check_tests` (check.rs lines 419-441), with the
repository root listing (the result of `get_repo_content`) passed as an
oracle parameter. -/
def check_tests (repo_content : List Content) : CheckResult :=
  if (get_test_files repo_content).isEmpty then
    { question := none, status := Status.red,
      explanation := "No test files found" }
  else
    { question := none, status := Status.green,
      explanation := "Test files found. Can\x27t guarantee coverage" }

/-- Embeds `CrateCheck::check_runs_against_latest_language` (check.rs
lines 488-499): run `check_tests` and, when its status is Green, append a
caveat to the explanation. -/
def check_runs_against_latest_language (repo_content : List Content) :
    CheckResult :=
  let ct := check_tests repo_content
  match ct.status with
  | Status.green =>
    { ct with explanation := ct.explanation ++ " or if they run with latest version" }
  | _ => ct

/-- Claim C9: for every state of the repository root listing, the
tests-against-latest-language-version evaluator returns exactly the same
Status (and question field) as the tests-present evaluator; the two
results can differ only in the explanation text. -/
theorem latest_language_same_status (repo_content : List Content) :
    (check_runs_against_latest_language repo_content).status =
      (check_tests repo_content).status ∧
    (check_runs_against_latest_language repo_content).question =
      (check_tests repo_content).question := by
  unfold check_runs_against_latest_language
  cases h : (check_tests repo_content).status <;> simp [h]

/-- Embeds octocrab workflow `Run` restricted to the query-relevant
attributes: conclusion status, branch, and whether it belongs to a pull
request. -/
structure WorkflowRun where
  status : String
  branch : String
  is_pull_request : Bool
deriving DecidableEq, Repr

/-- Embeds octocrab `WorkFlow` restricted to the field the checker reads:
the numeric id. -/
structure Workflow where
  id : Nat
deriving DecidableEq, Repr

/-- Oracle for the GitHub repository state behind the CI checks: the
repository's default branch, its workflow list, and the full run database
per workflow id (as the workflow-runs API would serve it before query
filters). -/
structure RepoState where
  default_branch : String
  workflows : List Workflow
  runs : List (String × List WorkflowRun)
deriving DecidableEq, Repr

/-- All runs of one workflow in the oracle database. -/
def runs_of (repo : RepoState) (workflow_id : String) : List WorkflowRun :=
  (repo.runs.lookup workflow_id).getD []

/-- Embeds `GithubService::get_workflow_runs` (github/mod.rs lines
168-182): the code requests runs with status "failed" on the hardcoded
branch "master", excluding pull requests, first page of 100; the server
side of that query is modelled as the corresponding filter over the run
database. -/
def get_workflow_runs (repo : RepoState) (workflow_id : String) :
    List WorkflowRun :=
  ((runs_of repo workflow_id).filter
    (fun r => r.status == "failed" && r.branch == "master" && !r.is_pull_request)).take 100

/-- `HashMap::insert` semantics on an association list: replace the value
at an existing key, otherwise append the binding. -/
def insert_assoc (m : List (String × Nat)) (k : String) (v : Nat) :
    List (String × Nat) :=
  if m.any (fun p => p.1 == k) then
    m.map (fun p => if p.1 == k then (k, v) else p)
  else m ++ [(k, v)]

/-- Embeds `CrateCheck::get_failing_workflows` (check.rs lines 565-583):
build a map from workflow id to the length of its failed-runs query
result, then count the entries with a positive value. -/
def get_failing_workflows (repo : RepoState) (workflows : List Workflow) : Nat :=
  let failing_workflows := workflows.foldl
    (fun m workflow =>
      insert_assoc m (toString workflow.id)
        (get_workflow_runs repo (toString workflow.id)).length) []
  (failing_workflows.filter (fun p => decide (0 < p.2))).length

/-- Embeds `CrateCheck::check_ci_status` (check.rs lines 528-563). -/
def check_ci_status (repo : RepoState) : CheckResult :=
  let workflows := repo.workflows
  if 0 < workflows.length then
    let failing_workflows_count := get_failing_workflows repo workflows
    if 0 < failing_workflows_count then
      { question := none, status := Status.green,
        explanation := toString failing_workflows_count ++ " of the workflows failed" }
    else
      { question := none, status := Status.green,
        explanation := "No failing workflow found" }
  else
    { question := none, status := Status.red,
      explanation := "The crate has no Github workflow" }

/-- The count described by the claim: workflows with at least one failed
non-pull-request run on the repository's DEFAULT branch (the code instead
queries the hardcoded branch "master"). -/
def default_branch_failing_count (repo : RepoState) : Nat :=
  (repo.workflows.filter (fun w =>
    !((runs_of repo (toString w.id)).filter
        (fun r => r.status == "failed" && r.branch == repo.default_branch
          && !r.is_pull_request)).isEmpty)).length

/-- The count the code actually produces: workflows whose failed-runs
query (status "failed", branch "master", non-PR, first 100) is
non-empty. -/
def master_failing_count (repo : RepoState) : Nat :=
  (repo.workflows.filter
    (fun w => !(get_workflow_runs repo (toString w.id)).isEmpty)).length

/-- Accumulating the per-workflow failed-run counts with `insert_assoc`
just appends one binding per workflow when the ids are distinct. -/
theorem foldl_insert_assoc (repo : RepoState) (ws : List Workflow)
    (m : List (String × Nat))
    (h : ∀ w ∈ ws, ∀ p ∈ m, (p.1 == toString w.id) = false)
    (hnd : (ws.map (fun w => toString w.id)).Nodup) :
    ws.foldl (fun acc workflow =>
        insert_assoc acc (toString workflow.id)
          (get_workflow_runs repo (toString workflow.id)).length) m =
      m ++ ws.map (fun w =>
        (toString w.id, (get_workflow_runs repo (toString w.id)).length)) := by
  induction ws generalizing m with
  | nil => simp
  | cons w ws ih =>
    simp only [List.foldl_cons, List.map_cons]
    have hstep : insert_assoc m (toString w.id)
        (get_workflow_runs repo (toString w.id)).length =
        m ++ [(toString w.id, (get_workflow_runs repo (toString w.id)).length)] := by
      have hc : m.any (fun p => p.1 == toString w.id) = false := by
        rw [List.any_eq_false]
        intro p hp
        rw [h w (by simp) p hp]
        exact Bool.false_ne_true
      unfold insert_assoc
      rw [hc]
      simp
    rw [hstep]
    rw [ih]
    · simp
    · intro w2 hw2 p hp
      rcases List.mem_append.mp hp with hp | hp
      · exact h w2 (by simp [hw2]) p hp
      · simp only [List.mem_singleton] at hp
        subst hp
        simp only [List.map_cons, List.nodup_cons] at hnd
        have : toString w.id ≠ toString w2.id := by
          intro he
          exact hnd.1 (he ▸ List.mem_map_of_mem (fun x => toString x.id) hw2)
        simp only [beq_eq_false_iff_ne, ne_eq]
        exact this
    · simp only [List.map_cons, List.nodup_cons] at hnd
      exact hnd.2

/-- With distinct workflow ids, the code's failing-workflow count equals
the number of workflows whose "master"-branch failed-run query is
non-empty. -/
theorem get_failing_workflows_eq (repo : RepoState)
    (hnd : (repo.workflows.map (fun w => toString w.id)).Nodup) :
    get_failing_workflows repo repo.workflows = master_failing_count repo := by
  unfold get_failing_workflows master_failing_count
  rw [foldl_insert_assoc repo repo.workflows [] (by simp) hnd]
  simp only [List.nil_append, List.filter_map, List.length_map]
  congr 1
  apply List.filter_congr
  intro w _
  cases hruns : get_workflow_runs repo (toString w.id) with
  | nil => simp [Function.comp, hruns]
  | cons r rs => simp [Function.comp, hruns]

/-- A repository whose default branch is "main", with one workflow having
one failed non-PR run on "main" (and none on "master"). -/
def ci_cex_repo : RepoState :=
  { default_branch := "main", workflows := [{ id := 1 }],
    runs := [("1", [{ status := "failed", branch := "main",
                      is_pull_request := false }])] }

/-- Claim C8 counterexample: on a repository whose default branch is
"main" with one workflow whose only failed non-PR run is on "main", the
number of workflows with a failed non-PR run on the default branch is 1
(positive), so the claim requires the explanation to state that number;
but the code queries the hardcoded branch "master", counts 0, and reports
"No failing workflow found". -/
theorem ci_status_counterexample :
    check_ci_status ci_cex_repo =
      { question := none, status := Status.green,
        explanation := "No failing workflow found" } ∧
    default_branch_failing_count ci_cex_repo = 1 ∧
    ci_cex_repo.default_branch = "main" := by
  decide

/-- Claim C8 (amended): with an empty workflow list the CI-passes
evaluator returns Fail; with a non-empty list (and distinct workflow ids)
the Status is Pass regardless of failures, and the explanation states the
number of workflows having at least one failed non-pull-request run on
the branch named "master" (not the repository's default branch) when that
number is positive, or "No failing workflow found" when it is zero. -/
theorem ci_status_verdict (repo : RepoState)
    (hnd : (repo.workflows.map (fun w => toString w.id)).Nodup) :
    (repo.workflows = [] →
      check_ci_status repo =
        { question := none, status := Status.red,
          explanation := "The crate has no Github workflow" }) ∧
    (repo.workflows ≠ [] →
      (check_ci_status repo).status = Status.green ∧
      (check_ci_status repo).explanation =
        (if 0 < master_failing_count repo then
           toString (master_failing_count repo) ++ " of the workflows failed"
         else "No failing workflow found")) := by
  constructor
  · intro hw
    simp [check_ci_status, hw]
  · intro hw
    have hpos : 0 < repo.workflows.length := List.length_pos.mpr hw
    have hcount := get_failing_workflows_eq repo hnd
    by_cases hfail : 0 < master_failing_count repo
    · simp [check_ci_status, hpos, hcount, hfail]
    · simp [check_ci_status, hpos, hcount, hfail]

/-- A repository on default branch "master" with two workflows, exactly
one of which has a failed non-PR run on "master". -/
def ci_wit_repo : RepoState :=
  { default_branch := "master", workflows := [{ id := 1 }, { id := 2 }],
    runs := [("1", [{ status := "failed", branch := "master",
                      is_pull_request := false }]),
             ("2", [])] }

/-- Claim C8 witness: the amended claim applied to a two-workflow
repository with one failing workflow: Pass, with "1 of the workflows
failed" as explanation. -/
theorem ci_status_verdict_witness :
    (check_ci_status ci_wit_repo).status = Status.green ∧
    (check_ci_status ci_wit_repo).explanation = "1 of the workflows failed" := by
  obtain ⟨hs, he⟩ := (ci_status_verdict ci_wit_repo (by decide)).2 (by decide)
  refine ⟨hs, ?_⟩
  rw [he]
  decide

/-- Embeds `CheckNames` from questions.rs. -/
inductive CheckNames where
  | ProductionReadiness
  | Documentation
  | Changelog
  | Tests
  | BugReportResponse
  | TestsRunAgainstLatestLanguageVersion
  | TestsRunAgainstLatestIntegrationVersion
  | ContinuousIntegrationConfiguration
  | ContinuousIntegrationPasses
  | Usage
  | LatestCommits
  | LatestRelease
deriving DecidableEq, Repr

/-- Embeds `Question` from questions.rs. -/
structure Question where
  number : String
  question : String
  explanation : String
  name : CheckNames
deriving DecidableEq, Repr

/-- Embeds `CrateCheck::check_question` (check.rs lines 179-237): run the
evaluator selected by the question, attach the question number to its
result, and return it as a singleton vector.  The dispatch over the twelve
network-backed evaluators is abstracted by the `evalFn` parameter (each
individual evaluator is embedded separately above). -/
def check_question (evalFn : Crate → Question → CheckResult)
    (cargo_crate : Crate) (question : Question) : List CheckResult :=
  [{ evalFn cargo_crate question with question := some question.number }]

/-- Embeds the question-selection head of `CrateCheck::run_checks`
(check.rs lines 129-147): selection "0" (the default) means the whole
catalog, any other number filters the catalog by that number (as
`Questions::describe` does). -/
def select_questions (catalog : List Question) (question : Option String) :
    List Question :=
  match question.getD "0" with
  | "0" => catalog
  | q => catalog.filter (fun x => x.number == q)

/-- Embeds the main loop of `CrateCheck::run_checks` (check.rs lines
149-168): for each crate with a source URL, push one `check_question`
result vector per selected question; crates without a source URL are
skipped with only a stderr notice. -/
def run_checks (evalFn : Crate → Question → CheckResult)
    (catalog : List Question) (crates : List Crate)
    (question : Option String) : List (List CheckResult) :=
  let selected_question := select_questions catalog question
  crates.foldl
    (fun results cargo_crate =>
      if cargo_crate.source_url.isSome then
        results ++ selected_question.map
          (fun q => check_question evalFn cargo_crate q)
      else results) []

/-- A catalog question numbered "1". -/
def demo_q1 : Question :=
  { number := "1", question := "Is the crate production ready?",
    explanation := "", name := CheckNames.ProductionReadiness }

/-- A catalog question numbered "2". -/
def demo_q2 : Question :=
  { number := "2", question := "Is the crate documented?",
    explanation := "", name := CheckNames.Documentation }

/-- Claim C6 counterexample: with one dependency (which has a source URL)
and two selected criteria, the claim requires the matrix to be one ordered
sequence of results per remaining dependency -- outer length 1 with an
inner block of 2 -- but `run_checks` returns one singleton inner vector
per (dependency, criterion) pair: outer length 2, every block of
length 1. -/
theorem run_checks_grouping_counterexample :
    (run_checks
        (fun _ _ => { question := none, status := Status.green, explanation := "ok" })
        [demo_q1, demo_q2] [readme_crate] none).length = 2 ∧
    ([readme_crate].filter (fun c => c.source_url.isSome)).length = 1 ∧
    (run_checks
        (fun _ _ => { question := none, status := Status.green, explanation := "ok" })
        [demo_q1, demo_q2] [readme_crate] none) =
      [[{ question := some "1", status := Status.green, explanation := "ok" }],
       [{ question := some "2", status := Status.green, explanation := "ok" }]] := by
  decide

/-- The `run_checks` fold with any initial accumulator appends, for each
crate with a source URL in input order, one `check_question` singleton per
selected question in selection order. -/
theorem run_checks_foldl_general (evalFn : Crate → Question → CheckResult)
    (sel : List Question) (crates : List Crate)
    (init : List (List CheckResult)) :
    crates.foldl
      (fun results cargo_crate =>
        if cargo_crate.source_url.isSome then
          results ++ sel.map (fun q => check_question evalFn cargo_crate q)
        else results) init =
      init ++ (crates.filter (fun c => c.source_url.isSome)).flatMap
        (fun c => sel.map (fun q => check_question evalFn c q)) := by
  induction crates generalizing init with
  | nil => simp
  | cons c cs ih =>
    simp only [List.foldl_cons, List.filter_cons]
    cases hsrc : c.source_url.isSome
    · simp [hsrc, ih]
    · simp [hsrc, ih]

/-- Claim C6 (amended): `run_checks` skips every dependency lacking a
source URL entirely (a side-channel notice only, no matrix rows), and
returns one SINGLETON sequence per (remaining dependency, selected
criterion) pair -- not one block per dependency -- with dependencies in
input order and, within a dependency's run of singletons, the selected
criteria in catalog (selection) order. -/
theorem run_checks_structure (evalFn : Crate → Question → CheckResult)
    (catalog : List Question) (crates : List Crate)
    (question : Option String) :
    run_checks evalFn catalog crates question =
      (crates.filter (fun c => c.source_url.isSome)).flatMap
        (fun c => (select_questions catalog question).map
          (fun q => check_question evalFn c q)) := by
  simp only [run_checks]
  rw [run_checks_foldl_general evalFn (select_questions catalog question) crates []]
  rw [List.nil_append]
